import Mathlib

/-!
Verification of the RetroArch TinySoundFont MIDI driver shim
(`src/midi/drivers/tsf_midi.c`) and of the win32 window wrapper
(`src/ui/drivers/win32/ui_win32_window.c`).

The C code is shallowly embedded: every external synthesizer-engine call
(`tsf_channel_note_on`, `tsf_set_volume`, ...) is recorded as a value of an
inductive call type, so "no synth-engine call occurs" becomes "the emitted
call list is empty".  `uint8_t` bytes are `Nat` values reduced modulo 256 at
each array read; the C bitmasks `& 0x0f`, `& 0x7f`, `& 0xf0` are `Nat.land`.
Float computations (`p2 / 127.0f`, volume `/ 16383.0f`) are modelled over ℚ;
the inputs are 14-bit integers, so the quotients of interest (0, 1, and the
range bounds) are exact in both ℚ and IEEE single precision.
-/

/-- A MIDI event as consumed by `tsf_midi_write`: the byte buffer pointed to
by `event->data`, with `event->data_size` the number of valid bytes.  All
reads in the C function are guarded to stay below `data_size`, so the buffer
is modelled as the list of exactly the `data_size` valid bytes. -/
structure midi_event_t where
  data : List Nat
deriving Repr, DecidableEq

/-- `event->data_size`. -/
def midi_event_t.data_size (event : midi_event_t) : Nat :=
  event.data.length

/-- `event->data[i]` as a `uint8_t` value: bytes live in [0, 255]. -/
def midi_event_t.byte (event : midi_event_t) (i : Nat) : Nat :=
  (event.data.getD i 0) % 256

/-- Calls made into the TinySoundFont engine by `tsf_midi_write`. -/
inductive synth_call where
  | channel_set_presetnumber (channel preset_number : Nat) (flag_mididrums : Bool)
  | channel_note_on (channel key : Nat) (vel : ℚ)
  | channel_note_off (channel key : Nat)
  | channel_set_pitchwheel (channel pitch_wheel : Nat)
  | channel_midi_control (channel controller control_value : Nat)
  | set_volume (global_gain : ℚ)
deriving Repr, DecidableEq

/-- `channel = (event->data[0] & 0x0f)`. -/
def tsf_midi_channel (event : midi_event_t) : Nat :=
  event.byte 0 &&& 0x0f

/-- `p1 = (event->data[1] & 0x7f)`. -/
def tsf_midi_p1 (event : midi_event_t) : Nat :=
  event.byte 1 &&& 0x7f

/-- `p2 = (event->data_size >= 3 ? (event->data[2] & 0x7f) : 0)`. -/
def tsf_midi_p2 (event : midi_event_t) : Nat :=
  if 3 ≤ event.data_size then event.byte 2 &&& 0x7f else 0

/-- The sysex signature test of the `TSF_MIDI_SYSEX` case:
`event->data_size == 8 && !memcmp(event->data+1, "\x7F\x7F\x04\x01", 4)`. -/
def tsf_sysex_sig (event : midi_event_t) : Prop :=
  event.data_size = 8 ∧ event.byte 1 = 0x7F ∧ event.byte 2 = 0x7F ∧
    event.byte 3 = 0x04 ∧ event.byte 4 = 0x01

instance (event : midi_event_t) : Decidable (tsf_sysex_sig event) := by
  unfold tsf_sysex_sig; infer_instance

/-- The sysex master-volume argument:
`(((event->data[6] & 0x7F) << 7) | (event->data[5] & 0x7F)) / 16383.0f`. -/
def tsf_sysex_volume (event : midi_event_t) : ℚ :=
  ((((event.byte 6 &&& 0x7F) <<< 7) ||| (event.byte 5 &&& 0x7F) : Nat) : ℚ) / 16383

/-- The `switch (event->data[0] & 0xf0)` body of `tsf_midi_write`, as the
list of synth-engine calls it performs (at most one). -/
def tsf_midi_dispatch (event : midi_event_t) : List synth_call :=
  let channel := tsf_midi_channel event
  let p1 := tsf_midi_p1 event
  let p2 := tsf_midi_p2 event
  let status := event.byte 0 &&& 0xf0
  if status = 0xC0 then      -- TSF_MIDI_PROGRAM_CHANGE
    [synth_call.channel_set_presetnumber channel p1 (channel == 9)]
  else if status = 0x90 then -- TSF_MIDI_NOTE_ON
    [synth_call.channel_note_on channel p1 ((p2 : ℚ) / 127)]
  else if status = 0x80 then -- TSF_MIDI_NOTE_OFF
    [synth_call.channel_note_off channel p1]
  else if status = 0xE0 then -- TSF_MIDI_PITCH_BEND
    [synth_call.channel_set_pitchwheel channel ((p2 <<< 7) ||| p1)]
  else if status = 0xB0 then -- TSF_MIDI_CONTROL_CHANGE
    [synth_call.channel_midi_control channel p1 p2]
  else if status = 0xF0 then -- TSF_MIDI_SYSEX
    if tsf_sysex_sig event then [synth_call.set_volume (tsf_sysex_volume event)]
    else []
  else []

/-- `tsf_midi_write`: the returned `bool` together with the synth-engine
calls performed. -/
def tsf_midi_write (event : midi_event_t) : Bool × List synth_call :=
  if event.data_size < 2 then (false, [])
  else (true, tsf_midi_dispatch event)

/-- Claim C1: `tsf_midi_write` returns `false` exactly when
`event->data_size < 2`; in that case no synth-engine call is made, and once
the length check passes it returns `true` whatever the status byte is. -/
theorem tsf_midi_write_rejects_iff_short (event : midi_event_t) :
    ((tsf_midi_write event).1 = false ↔ event.data_size < 2)
    ∧ (event.data_size < 2 → (tsf_midi_write event).2 = [])
    ∧ (2 ≤ event.data_size → (tsf_midi_write event).1 = true) := by
  unfold tsf_midi_write
  by_cases h : event.data_size < 2 <;> simp [h]

/-- Witness for C1: the empty event is rejected, and a two-byte event with
the unrecognized status nibble 0xA0 is still accepted. -/
theorem tsf_midi_write_rejects_iff_short_witness :
    (tsf_midi_write { data := [] }).1 = false
    ∧ (tsf_midi_write { data := [0xA5, 0x00] }).1 = true :=
  ⟨(tsf_midi_write_rejects_iff_short { data := [] }).1.mpr (by decide),
   (tsf_midi_write_rejects_iff_short { data := [0xA5, 0x00] }).2.2 (by decide)⟩

/-- C5 helper: the masked data bytes are 7-bit values. -/
theorem tsf_midi_p1_le (event : midi_event_t) : tsf_midi_p1 event ≤ 127 :=
  Nat.and_le_right

theorem tsf_midi_p2_le (event : midi_event_t) : tsf_midi_p2 event ≤ 127 := by
  unfold tsf_midi_p2
  split
  · exact Nat.and_le_right
  · exact Nat.zero_le 127

/-- Claim C5: a Pitch Bend event (status nibble 0xE0) of length ≥ 3 sets the
channel pitch wheel to `((data[2] & 0x7F) << 7) | (data[1] & 0x7F)`, and any
pitch-wheel value the dispatcher ever emits lies in [0, 16383]. -/
theorem tsf_midi_write_pitch_bend (event : midi_event_t)
    (hstat : event.byte 0 &&& 0xf0 = 0xE0) (hlen : 3 ≤ event.data_size) :
    (tsf_midi_write event).2 =
      [synth_call.channel_set_pitchwheel (tsf_midi_channel event)
        (((event.byte 2 &&& 0x7f) <<< 7) ||| (event.byte 1 &&& 0x7f))]
    ∧ (((event.byte 2 &&& 0x7f) <<< 7) ||| (event.byte 1 &&& 0x7f)) ≤ 16383 := by
  have hp2 : tsf_midi_p2 event = event.byte 2 &&& 0x7f := by
    unfold tsf_midi_p2; simp [hlen]
  constructor
  · have h2 : ¬ event.data_size < 2 := by omega
    unfold tsf_midi_write tsf_midi_dispatch
    simp [h2, hstat, hp2, tsf_midi_p1]
  · have h1 : event.byte 1 &&& 0x7f ≤ 127 := Nat.and_le_right
    have h2 : event.byte 2 &&& 0x7f ≤ 127 := Nat.and_le_right
    have : ((event.byte 2 &&& 0x7f) <<< 7) ||| (event.byte 1 &&& 0x7f) < 2 ^ 14 :=
      Nat.or_lt_two_pow (by simp [Nat.shiftLeft_eq]; omega) (by omega)
    omega

/-- Witness for C5: `E0 7F 7F` sets the pitch wheel of channel 0 to 16383. -/
theorem tsf_midi_write_pitch_bend_witness :
    (tsf_midi_write { data := [0xE0, 0x7F, 0x7F] }).2 =
      [synth_call.channel_set_pitchwheel 0 16383] := by
  have h := tsf_midi_write_pitch_bend { data := [0xE0, 0x7F, 0x7F] }
    (by decide) (by decide)
  rw [h.1]; decide

/-- Claim C6: a Program Change event (status nibble 0xC0) calls the preset
setter with the drums flag, and that flag is `true` exactly on channel 9. -/
theorem tsf_midi_write_program_change (event : midi_event_t)
    (hstat : event.byte 0 &&& 0xf0 = 0xC0) (hlen : 2 ≤ event.data_size) :
    (tsf_midi_write event).2 =
      [synth_call.channel_set_presetnumber (tsf_midi_channel event)
        (tsf_midi_p1 event) (tsf_midi_channel event == 9)]
    ∧ ((tsf_midi_channel event == 9) = true ↔ tsf_midi_channel event = 9) := by
  have h2 : ¬ event.data_size < 2 := by omega
  constructor
  · unfold tsf_midi_write tsf_midi_dispatch
    simp [h2, hstat]
  · exact beq_iff_eq

/-- Witness for C6: `C9 05` (channel 9) sets the drums flag; `C0 05`
(channel 0) does not. -/
theorem tsf_midi_write_program_change_witness :
    (tsf_midi_write { data := [0xC9, 0x05] }).2 =
      [synth_call.channel_set_presetnumber 9 5 true]
    ∧ (tsf_midi_write { data := [0xC0, 0x05] }).2 =
      [synth_call.channel_set_presetnumber 0 5 false] := by
  have h9 := tsf_midi_write_program_change { data := [0xC9, 0x05] }
    (by decide) (by decide)
  have h0 := tsf_midi_write_program_change { data := [0xC0, 0x05] }
    (by decide) (by decide)
  rw [h9.1, h0.1]; constructor <;> decide

/-- Claim C7: a Note On event (status nibble 0x90) starts note `p1` at
velocity `p2 / 127`, the velocity is always in [0, 1], it is exactly 1 when
`data[2] & 0x7F = 127`, and exactly 0 when the third byte is absent
(`data_size = 2`) or when `data[2] & 0x7F = 0`. -/
theorem tsf_midi_write_note_on (event : midi_event_t)
    (hstat : event.byte 0 &&& 0xf0 = 0x90) (hlen : 2 ≤ event.data_size) :
    (tsf_midi_write event).2 =
      [synth_call.channel_note_on (tsf_midi_channel event) (tsf_midi_p1 event)
        ((tsf_midi_p2 event : ℚ) / 127)]
    ∧ 0 ≤ (tsf_midi_p2 event : ℚ) / 127
    ∧ (tsf_midi_p2 event : ℚ) / 127 ≤ 1
    ∧ (3 ≤ event.data_size → event.byte 2 &&& 0x7f = 127 →
        (tsf_midi_p2 event : ℚ) / 127 = 1)
    ∧ (event.data_size = 2 → (tsf_midi_p2 event : ℚ) / 127 = 0)
    ∧ (3 ≤ event.data_size → event.byte 2 &&& 0x7f = 0 →
        (tsf_midi_p2 event : ℚ) / 127 = 0) := by
  have h2 : ¬ event.data_size < 2 := by omega
  have hle : tsf_midi_p2 event ≤ 127 := tsf_midi_p2_le event
  refine ⟨?_, ?_, ?_, ?_, ?_, ?_⟩
  · unfold tsf_midi_write tsf_midi_dispatch
    simp [h2, hstat]
  · positivity
  · rw [div_le_one (by norm_num)]
    exact_mod_cast hle
  · intro h3 hv
    have : tsf_midi_p2 event = 127 := by unfold tsf_midi_p2; simp [h3, hv]
    rw [this]; norm_num
  · intro hsz
    have : tsf_midi_p2 event = 0 := by unfold tsf_midi_p2; simp [hsz]
    rw [this]; norm_num
  · intro h3 hv
    have : tsf_midi_p2 event = 0 := by unfold tsf_midi_p2; simp [h3, hv]
    rw [this]; norm_num

/-- Witness for C7: `90 3C 7F` plays note 60 at velocity 1, and the
two-byte event `90 3C` plays it at velocity 0. -/
theorem tsf_midi_write_note_on_witness :
    (tsf_midi_write { data := [0x90, 0x3C, 0x7F] }).2 =
      [synth_call.channel_note_on 0 60 1]
    ∧ (tsf_midi_write { data := [0x90, 0x3C] }).2 =
      [synth_call.channel_note_on 0 60 0] := by
  have hmax := tsf_midi_write_note_on { data := [0x90, 0x3C, 0x7F] }
    (by decide) (by decide)
  have hmin := tsf_midi_write_note_on { data := [0x90, 0x3C] }
    (by decide) (by decide)
  rw [hmax.1, hmin.1]
  have e1 : ((tsf_midi_p2 { data := [0x90, 0x3C, 0x7F] } : ℚ) / 127) = 1 :=
    hmax.2.2.2.1 (by decide) (by decide)
  have e0 : ((tsf_midi_p2 { data := [0x90, 0x3C] } : ℚ) / 127) = 0 :=
    hmin.2.2.2.2.1 (by decide)
  rw [e1, e0]
  constructor <;> rfl

/-- C2 helper: the only branch of the dispatcher that calls `tsf_set_volume`
is the sysex branch with the 8-byte signature, and the value it passes is
`tsf_sysex_volume`. -/
theorem set_volume_only_from_sysex (e : midi_event_t) (q : ℚ)
    (h : synth_call.set_volume q ∈ (tsf_midi_write e).2) :
    e.byte 0 &&& 0xf0 = 0xF0 ∧ tsf_sysex_sig e ∧ q = tsf_sysex_volume e := by
  unfold tsf_midi_write at h
  split at h
  · simp at h
  · unfold tsf_midi_dispatch at h
    simp only at h
    split_ifs at h <;> simp_all

/-- Claim C2: for a sysex event (status nibble 0xF0) with the length check
passed, the dispatcher sets the master volume exactly when the event is 8
bytes long and bytes 1..4 are `7F 7F 04 01`; the volume passed is
`(((data[6] & 0x7F) << 7) | (data[5] & 0x7F)) / 16383`, which is 1 when
bytes 5 and 6 are both `0x7F`; any non-matching sysex event produces no
synth call, and no other event kind ever sets the volume. -/
theorem tsf_midi_write_sysex (event : midi_event_t)
    (hstat : event.byte 0 &&& 0xf0 = 0xF0) (hlen : 2 ≤ event.data_size) :
    (tsf_sysex_sig event →
      (tsf_midi_write event).2 = [synth_call.set_volume (tsf_sysex_volume event)])
    ∧ (¬ tsf_sysex_sig event → (tsf_midi_write event).2 = [])
    ∧ (event.byte 5 = 0x7F → event.byte 6 = 0x7F → tsf_sysex_volume event = 1)
    ∧ ∀ (e : midi_event_t) (q : ℚ), synth_call.set_volume q ∈ (tsf_midi_write e).2 →
        e.byte 0 &&& 0xf0 = 0xF0 ∧ tsf_sysex_sig e ∧ q = tsf_sysex_volume e := by
  have h2 : ¬ event.data_size < 2 := by omega
  refine ⟨?_, ?_, ?_, set_volume_only_from_sysex⟩
  · intro hsig
    unfold tsf_midi_write tsf_midi_dispatch
    simp [h2, hstat, hsig]
  · intro hsig
    unfold tsf_midi_write tsf_midi_dispatch
    simp [h2, hstat, hsig]
  · intro h5 h6
    unfold tsf_sysex_volume
    rw [h5, h6]
    have hval : ((127 &&& 0x7F) <<< 7) ||| (127 &&& 0x7F) = 16383 := by decide
    rw [hval]
    norm_num

/-- Witness for C2: the full volume sysex `F0 7F 7F 04 01 7F 7F F7` sets the
master volume to 1, and the sysex `F0 01 02` produces no synth call. -/
theorem tsf_midi_write_sysex_witness :
    (tsf_midi_write { data := [0xF0, 0x7F, 0x7F, 0x04, 0x01, 0x7F, 0x7F, 0xF7] }).2 =
      [synth_call.set_volume 1]
    ∧ (tsf_midi_write { data := [0xF0, 0x01, 0x02] }).2 = [] := by
  have hmatch := tsf_midi_write_sysex
    { data := [0xF0, 0x7F, 0x7F, 0x04, 0x01, 0x7F, 0x7F, 0xF7] } (by decide) (by decide)
  have hmiss := tsf_midi_write_sysex { data := [0xF0, 0x01, 0x02] } (by decide) (by decide)
  constructor
  · rw [hmatch.1 (by decide), hmatch.2.2.1 (by decide) (by decide)]
  · exact hmiss.2.1 (by decide)

/-- The driver state `tsf_midi_t`: the loaded `tsf *instance` and the
`slock_t *synth_lock` (threading enabled), both as abstract resource ids. -/
structure tsf_midi_t where
  inst : Nat
  synth_lock : Nat
deriving Repr, DecidableEq

/-- Resource releases performed by `tsf_midi_free`. -/
inductive free_call where
  | tsf_close (inst : Nat)
  | slock_free (lock : Nat)
  | free_mem
deriving Repr, DecidableEq

/-- `tsf_midi_free`: a nullable handle is `Option tsf_midi_t`; the result is
the releases performed together with the handle after the call (a freed
handle is gone, i.e. `none`). -/
def tsf_midi_free : Option tsf_midi_t → List free_call × Option tsf_midi_t
  | none => ([], none)
  | some d => ([free_call.tsf_close d.inst, free_call.slock_free d.synth_lock,
                free_call.free_mem], none)

/-- Claim C3: `tsf_midi_free` on a null handle releases nothing (no-op),
and a second `tsf_midi_free` after any first one releases nothing again:
the null-check makes double shutdown idempotent. -/
theorem tsf_midi_free_idempotent :
    tsf_midi_free none = ([], none)
    ∧ ∀ (p : Option tsf_midi_t), tsf_midi_free (tsf_midi_free p).2 = ([], none) := by
  refine ⟨rfl, ?_⟩
  intro p
  cases p <;> rfl

/-- The TinySoundFont output mode passed by `tsf_midi_init`. -/
inductive TSFOutputMode where
  | TSF_STEREO_INTERLEAVED
  | TSF_STEREO_UNWEAVED
  | TSF_MONO
deriving Repr, DecidableEq

/-- External collaborators of `tsf_midi_init`: the configured system
directory, the host audio sample rate, the path-join routine, the synth
loader of the engine (`none` = load failure, `some id` = loaded instance), and
the id of the lock `slock_new` hands out. -/
structure init_env where
  directory_system : String
  sample_rate : Int
  fill_pathname_join : String → String → String
  tsf_load_filename : String → Option Nat
  slock_new : Nat

/-- Calls made by `tsf_midi_init` into its collaborators, in order. -/
inductive init_call where
  | tsf_load_filename (path : String)
  | tsf_set_output (inst : Nat) (mode : TSFOutputMode) (samplerate : Int) (global_gain_db : Int)
  | slock_new
  | audio_mixer_play_synth
  | audio_driver_mixer_set_active
deriving Repr, DecidableEq

/-- `tsf_midi_init`: returns the handle (or `none` on failure) together
with the collaborator calls performed. -/
def tsf_midi_init (env : init_env) (input : Option String) (output : Option String) :
    Option tsf_midi_t × List init_call :=
  match output with
  | none => (none, [])
  | some _ =>
    let sf2path := env.fill_pathname_join env.directory_system "GM.SF2"
    match env.tsf_load_filename sf2path with
    | none => (none, [init_call.tsf_load_filename sf2path])
    | some inst =>
        (some { inst := inst, synth_lock := env.slock_new },
         [init_call.tsf_load_filename sf2path,
          init_call.tsf_set_output inst TSFOutputMode.TSF_STEREO_INTERLEAVED
            env.sample_rate 0,
          init_call.slock_new,
          init_call.audio_mixer_play_synth,
          init_call.audio_driver_mixer_set_active])

/-- Claim C8: `tsf_midi_init` returns no handle when `output` is null —
and then makes no collaborator call at all, in particular no load attempt —
or when the sound-bank load fails; when the load succeeds it returns a
non-null handle. -/
theorem tsf_midi_init_failure_modes (env : init_env) (input : Option String) :
    (tsf_midi_init env input none = (none, []))
    ∧ (∀ s : String,
        env.tsf_load_filename (env.fill_pathname_join env.directory_system "GM.SF2") = none →
        (tsf_midi_init env input (some s)).1 = none)
    ∧ (∀ (s : String) (i : Nat),
        env.tsf_load_filename (env.fill_pathname_join env.directory_system "GM.SF2") = some i →
        (tsf_midi_init env input (some s)).1 =
          some { inst := i, synth_lock := env.slock_new }) := by
  refine ⟨rfl, ?_, ?_⟩
  · intro s hload
    unfold tsf_midi_init
    simp [hload]
  · intro s i hload
    unfold tsf_midi_init
    simp [hload]

/-- Witness for C8: with a loader that fails, init on output "GM" returns no
handle; with a loader that yields instance 7, it returns handle 7. -/
theorem tsf_midi_init_failure_modes_witness :
    (tsf_midi_init
      { directory_system := "sys", sample_rate := 48000,
        fill_pathname_join := fun a b => a ++ "/" ++ b,
        tsf_load_filename := fun _ => none, slock_new := 3 } none (some "GM")).1 = none
    ∧ (tsf_midi_init
      { directory_system := "sys", sample_rate := 48000,
        fill_pathname_join := fun a b => a ++ "/" ++ b,
        tsf_load_filename := fun _ => some 7, slock_new := 3 } none (some "GM")).1 =
        some { inst := 7, synth_lock := 3 } :=
  ⟨(tsf_midi_init_failure_modes
      { directory_system := "sys", sample_rate := 48000,
        fill_pathname_join := fun a b => a ++ "/" ++ b,
        tsf_load_filename := fun _ => none, slock_new := 3 } none).2.1 "GM" rfl,
   (tsf_midi_init_failure_modes
      { directory_system := "sys", sample_rate := 48000,
        fill_pathname_join := fun a b => a ++ "/" ++ b,
        tsf_load_filename := fun _ => some 7, slock_new := 3 } none).2.2 "GM" 7 rfl⟩

/-- The single render call `tsf_synth` makes:
`tsf_render_float(d->instance, buffer, num_frames, 1)`.  The buffer is an
abstract id; the last argument is the literal flag_mixing `1`. -/
inductive render_call where
  | tsf_render_float (inst : Nat) (buffer : Nat) (num_frames : Nat) (flag_mixing : Nat)
deriving Repr, DecidableEq

/-- `tsf_synth(p, buffer, num_frames, volume)`: the body renders under the
lock and never reads `volume`. -/
def tsf_synth (d : tsf_midi_t) (buffer : Nat) (num_frames : Nat) (volume : ℚ) :
    render_call :=
  render_call.tsf_render_float d.inst buffer num_frames 1

/-- Claim C9: `tsf_synth` is insensitive to its `volume` parameter — two
invocations that differ only in `volume` make the identical render call. -/
theorem tsf_synth_ignores_volume (d : tsf_midi_t) (buffer num_frames : Nat)
    (v1 v2 : ℚ) :
    tsf_synth d buffer num_frames v1 = tsf_synth d buffer num_frames v2 :=
  rfl

/-- `tsf_midi_get_avail_outputs`: appends the four accepted output aliases
to the list given by the caller and reports success. -/
def tsf_midi_get_avail_outputs (outputs : List String) : Bool × List String :=
  (true, (((outputs ++ ["SF2"]) ++ ["sf2"]) ++ ["GM"]) ++ ["gm"])

/-- Claim C10: output enumeration succeeds and the resulting list contains
the aliases "SF2", "sf2", "GM" and "gm". -/
theorem tsf_midi_get_avail_outputs_aliases (outputs : List String) :
    (tsf_midi_get_avail_outputs outputs).1 = true
    ∧ "SF2" ∈ (tsf_midi_get_avail_outputs outputs).2
    ∧ "sf2" ∈ (tsf_midi_get_avail_outputs outputs).2
    ∧ "GM" ∈ (tsf_midi_get_avail_outputs outputs).2
    ∧ "gm" ∈ (tsf_midi_get_avail_outputs outputs).2 := by
  unfold tsf_midi_get_avail_outputs
  simp

/-- `ui_window_win32_t`: the wrapped native window handle. -/
structure ui_window_win32_t where
  hwnd : Nat
deriving Repr, DecidableEq

/-- The `nCmdShow` values used by the wrapper. -/
inductive show_cmd_t where
  | SW_SHOWNORMAL
  | SW_HIDE
deriving Repr, DecidableEq

/-- OS calls made by the window wrapper. -/
inductive win32_call where
  | DestroyWindow (hwnd : Nat)
  | SetFocus (hwnd : Nat)
  | ShowWindow (hwnd : Nat) (nCmdShow : show_cmd_t)
  | SetWindowText (hwnd : Nat) (buf : String)
deriving Repr, DecidableEq

/-- `ui_window_win32_destroy`. -/
def ui_window_win32_destroy (window : ui_window_win32_t) : win32_call :=
  win32_call.DestroyWindow window.hwnd

/-- `ui_window_win32_set_focused`. -/
def ui_window_win32_set_focused (window : ui_window_win32_t) : win32_call :=
  win32_call.SetFocus window.hwnd

/-- `ui_window_win32_set_visible(data, set_visible)` as written in the
source: the ternary tests an identifier `visible` that is NOT the parameter
`set_visible` and is declared nowhere in the file, so that unresolved name
is modelled as an extra ambient input; the boolean parameter `set_visible`
is never read by the body. -/
def ui_window_win32_set_visible (visible : Bool) (window : ui_window_win32_t)
    (set_visible : Bool) : win32_call :=
  win32_call.ShowWindow window.hwnd
    (if visible then show_cmd_t.SW_SHOWNORMAL else show_cmd_t.SW_HIDE)

/-- `ui_window_win32_set_title`. -/
def ui_window_win32_set_title (window : ui_window_win32_t) (buf : String) :
    win32_call :=
  win32_call.SetWindowText window.hwnd buf

/-- Claim C4 fails on the code: the body of `ui_window_win32_set_visible`
never reads its own `set_visible` parameter (it tests the unresolved name
`visible` instead), so the resulting `ShowWindow` call is independent of the
parameter; in particular with the ambient `visible` false, calling it with
`set_visible = true` still issues `SW_HIDE`, where the claim demands
`SW_SHOWNORMAL`. -/
theorem ui_window_win32_set_visible_ignores_param :
    (∀ (visible : Bool) (w : ui_window_win32_t) (a b : Bool),
        ui_window_win32_set_visible visible w a = ui_window_win32_set_visible visible w b)
    ∧ ui_window_win32_set_visible false { hwnd := 1 } true =
        win32_call.ShowWindow 1 show_cmd_t.SW_HIDE :=
  ⟨fun _ _ _ _ => rfl, rfl⟩
